import Mathlib

/-!
Verification of head-network-distillation against its specification.

Shallow embedding of the relevant parts of `src/network_analyzer.py`,
`src/autoencoder_tester.py` and their collaborators. Tensors, parameter
states and byte-size bandwidths are modelled over `ℚ`; Python lists are
Lean lists, Python indexing (including negative indices) is modelled by
`pyGet?`, checkpoint files by a partial map from paths to records, and
fallible operations by `Except`/`Option`.
-/

namespace NetworkAnalyzer

/-- Python list indexing `xs[i]`: a negative index counts from the end
(`xs[-k] = xs[len xs - k]`); an out-of-range access yields `none`
(an `IndexError` in the original). -/
def pyGet? (xs : List ℚ) (i : Int) : Option ℚ :=
  let j : Int := if i < 0 then (xs.length : Int) + i else i
  if 0 ≤ j then xs[j.toNat]? else none

/-- Model of `np.argmin` on a list of rationals: index of the first
occurrence of the minimum (0 on the empty list, as a total stand-in;
the source never applies it to an empty sequence). -/
def npArgmin : List ℚ → Nat
  | [] => 0
  | [_] => 0
  | x :: y :: rest =>
    if (y :: rest).getD (npArgmin (y :: rest)) 0 < x then npArgmin (y :: rest) + 1 else 0

/-- The pair appended per student model in `analyze_teacher_student_models`:
the selected accumulated complexity and the normalized bandwidth. -/
structure StudentSelection where
  complexity : ℚ
  bandwidth : ℚ
  deriving DecidableEq, Repr

/-- Embedding of `network_analyzer.analyze_teacher_student_models` lines
127-137: bottleneck-index computation and the selection of the reported
student accumulated complexity and bandwidth ratio. `made_bottleneck`
is `student_model_version.endswith('b')`. -/
def select_student_stats (student_bandwidths student_accum_complexities : List ℚ)
    (made_bottleneck : Bool) : Option StudentSelection :=
  let bottleneck_idx : Int :=
    if made_bottleneck then (npArgmin student_bandwidths : Int) else -1
  match pyGet? student_bandwidths bottleneck_idx, pyGet? student_bandwidths 0 with
  | some b_at, some b0 =>
    if b0 ≤ b_at ∨ made_bottleneck = false then
      match pyGet? student_accum_complexities (-1), pyGet? student_bandwidths (-1) with
      | some c_last, some b_last => some ⟨c_last, b_last / b0⟩
      | _, _ => none
    else
      match pyGet? student_accum_complexities (bottleneck_idx - 1) with
      | some c => some ⟨c, b_at / b0⟩
      | none => none
  | _, _ => none

/-- Result of `network_analyzer.get_model`: one of the three custom
networks, or a torchvision model constructed from its dictionary. -/
inductive BuiltModel
  | mnistLeNet5 : BuiltModel
  | yolov2 : BuiltModel
  | yolov3 : BuiltModel
  | torchvision : String → BuiltModel
  deriving DecidableEq, Repr

/-- Python `s.lower()` on ASCII identifiers: lowercase every character. -/
def py_lower (s : String) : String :=
  ⟨s.data.map Char.toLower⟩

/-- Embedding of `network_analyzer.get_model`. The set of names exported
by `torchvision.models` is an external collaborator, passed in as
`torchvision_models`; membership there is case-sensitive, while the three
custom names are matched on the lowercased identifier, as in the source.
An unrecognized identifier raises `ValueError` with the offending value. -/
def get_model (torchvision_models : List String) (model_type : String) :
    Except String BuiltModel :=
  let lower_model_type := py_lower model_type
  if lower_model_type = "mnist" then .ok .mnistLeNet5
  else if lower_model_type = "yolov2" then .ok .yolov2
  else if lower_model_type = "yolov3" then .ok .yolov3
  else if model_type ∈ torchvision_models then .ok (.torchvision model_type)
  else .error ("model_type `" ++ model_type ++ "` is not expected")

/-- The three mutually exclusive actions dispatched by
`network_analyzer.run`, each carrying the data handed to the callee
(`analyze_single_model` receives `None` when no config path is given,
else the first path). -/
inductive AnalysisAction
  | singleModel : Option String → AnalysisAction
  | multipleModels : List String → AnalysisAction
  | teacherStudentModels : List String → AnalysisAction
  deriving DecidableEq, Repr

/-- Embedding of `network_analyzer.run` lines 146-153: dispatch on the
number of config paths and the `-ts` flag. -/
def run (config_file_paths : List String) (ts : Bool) : AnalysisAction :=
  if config_file_paths.length ≤ 1 then
    AnalysisAction.singleModel
      (if config_file_paths.length = 0 then none else config_file_paths[0]?)
  else if ts = false then
    AnalysisAction.multipleModels config_file_paths
  else
    AnalysisAction.teacherStudentModels config_file_paths

/-- Python `s.endswith(pat)`: suffix test on the character sequences. -/
def py_endswith (s pat : String) : Bool :=
  pat.data.isSuffixOf s.data

/-- The bottleneck flag of `analyze_teacher_student_models` line 127:
`student_model_version.endswith('b')`. -/
def made_bottleneck (student_model_version : String) : Bool :=
  py_endswith student_model_version "b"

end NetworkAnalyzer

namespace AutoencoderTester

/-- Tensors are modelled as rationals; a torch module, semantically, is a
tensor transformer. -/
def TModule : Type := ℚ → ℚ

/-- Semantics of `nn.Sequential(*mods)`: apply the modules in order. -/
def sequential (mods : List TModule) (x : ℚ) : ℚ :=
  mods.foldl (fun t m => m t) x

/-- Embedding of `autoencoder_tester.extend_model`. `model` is the host
network's end-to-end transformer and `modules` its decomposed primitive
layer sequence, produced by the external collaborator
`module_util.extract_decomposable_modules` (the call on line 30; the
decomposition itself is outside this repository). The result is the list
of submodules of the returned `nn.Sequential`. -/
def extend_model (autoencoder : TModule) (model : TModule) (modules : List TModule) :
    Option Nat → List TModule
  | none => [autoencoder, model]
  | some 0 => [autoencoder, model]
  | some (i + 1) => modules.take (i + 1) ++ [autoencoder] ++ modules.drop (i + 1)

/-- Parameter state of a module (`state_dict()`), modelled as a named
association of parameter tensors. -/
def StateDict : Type := List (String × ℚ)

/-- A persisted autoencoder checkpoint record: the dictionary built by
`save_ckpt` has exactly these four fields. -/
structure Checkpoint where
  type : String
  model : StateDict
  epoch : Int
  best_avg_loss : ℚ

/-- A filesystem of checkpoint files: path → record, `none` when
`file_util.check_if_exists` is false. -/
def CkptStore : Type := String → Option Checkpoint

/-- An autoencoder object as `save_ckpt` sees it: either a bare module or
one wrapped in `nn.DataParallel` (whose `.module` is the bare module).
Only the parameter state matters for checkpointing. -/
inductive Autoencoder
  | plain : StateDict → Autoencoder
  | dataParallel : StateDict → Autoencoder

/-- The `state_dict` persisted by `save_ckpt`: the wrapped module's when
the autoencoder is a `nn.DataParallel` container, its own otherwise. -/
def Autoencoder.unwrapped_state : Autoencoder → StateDict
  | plain sd => sd
  | dataParallel sd => sd

/-- Embedding of `autoencoder_tester.resume_from_ckpt`: if no file exists
at the path, print a message and return start epoch 1 with sentinel best
loss `1e60`, leaving the autoencoder's parameters untouched; otherwise
load the record's `model` field into the autoencoder and return its
`epoch` and `best_avg_loss` fields. The first component of the result is
the autoencoder's parameter state after the call. -/
def resume_from_ckpt (fs : CkptStore) (ckpt_file_path : String)
    (autoencoder : StateDict) : StateDict × Int × ℚ :=
  match fs ckpt_file_path with
  | none => (autoencoder, 1, 10 ^ 60)
  | some checkpoint => (checkpoint.model, checkpoint.epoch, checkpoint.best_avg_loss)

/-- Embedding of `autoencoder_tester.save_ckpt`: writes at
`ckpt_file_path` the record with fields `type`, `model` (the unwrapped
parameter state), `epoch + 1` and `best_avg_loss`; other paths are
unchanged. -/
def save_ckpt (fs : CkptStore) (autoencoder : Autoencoder) (epoch : Int)
    (best_avg_loss : ℚ) (ckpt_file_path : String) (ae_type : String) : CkptStore :=
  fun p =>
    if p = ckpt_file_path then
      some { type := ae_type
             model := autoencoder.unwrapped_state
             epoch := epoch + 1
             best_avg_loss := best_avg_loss }
    else fs p

/-- Result of `autoencoder_tester.get_autoencoder`: the only recognized
type tag is `input`, building an `InputAutoencoder`. -/
inductive BuiltAutoencoder
  | inputAE : BuiltAutoencoder
  deriving DecidableEq, Repr

/-- Embedding of `autoencoder_tester.get_autoencoder` lines 59-67: the
`autoencoder` local stays `None` unless `ae_type` is `input`, and a
`None` autoencoder raises `ValueError` naming the offending type. -/
def get_autoencoder (ae_type : String) : Except String BuiltAutoencoder :=
  let autoencoder : Option BuiltAutoencoder :=
    if ae_type = "input" then some .inputAE else none
  match autoencoder with
  | some ae => .ok ae
  | none => .error ("ae_type `" ++ ae_type ++ "` is not expected")

/-- Python runtime errors relevant to `autoencoder_tester.test`. -/
inductive PyErr
  | attributeError : String → PyErr
  | typeError : String → PyErr
  | zeroDivisionError : PyErr
  deriving DecidableEq, Repr

/-- Runtime values flowing into `test`'s parameters: a neural module
(callable, has `.eval()`), a data loader (iterable batches of
`(inputs, targets)`, no `.eval()`), a loss criterion (an `nn.Module`,
so it has `.eval()`, but it is not iterable), or a device string. -/
inductive PyVal
  | module : (ℚ → ℚ) → PyVal
  | dataLoader : List (ℚ × ℚ) → PyVal
  | lossCriterion : PyVal
  | deviceStr : String → PyVal

/-- Calling `.eval()` on a value: modules (including loss criteria) have
the attribute; a data loader or a string does not. -/
def PyVal.evalMode : PyVal → Except PyErr Unit
  | module _ => .ok ()
  | lossCriterion => .ok ()
  | dataLoader _ => .error (.attributeError "eval")
  | deviceStr _ => .error (.attributeError "eval")

/-- Iterating a value (`for _ in v`): only a data loader yields batches. -/
def PyVal.iterate : PyVal → Except PyErr (List (ℚ × ℚ))
  | dataLoader batches => .ok batches
  | module _ => .error (.typeError "object is not iterable")
  | lossCriterion => .error (.typeError "object is not iterable")
  | deviceStr _ => .error (.typeError "object is not iterable")

/-- Applying a value to one tensor (`v(inputs)`): only a module computes. -/
def PyVal.call : PyVal → ℚ → Except PyErr ℚ
  | module f, x => .ok (f x)
  | dataLoader _, _ => .error (.typeError "object is not callable")
  | lossCriterion, _ => .error (.typeError "missing argument")
  | deviceStr _, _ => .error (.typeError "object is not callable")

/-- External torch numerics used inside `predict`: `cross_entropy`,
`preds.max(1)` label extraction, element-wise `eq(...).sum().item()`, and
`targets.size(0)`. They belong to the framework, not this repository, so
the embedding is parametric in them. -/
structure TorchOps where
  cross_entropy : ℚ → ℚ → ℚ
  argmax_labels : ℚ → ℚ
  eq_count : ℚ → ℚ → Nat
  size0 : ℚ → Nat

/-- Embedding of `autoencoder_tester.predict`: apply the model to the
inputs, compute the loss and the count of correctly predicted labels. -/
def predict (ops : TorchOps) (inputs targets : ℚ) (model : PyVal) :
    Except PyErr (Nat × ℚ) := do
  let preds ← model.call inputs
  let loss := ops.cross_entropy preds targets
  let pred_labels := ops.argmax_labels preds
  let correct_count := ops.eq_count pred_labels targets
  return (correct_count, loss)

/-- Loop state of `test`: correct counts, summed losses, sample total. -/
structure TestAccum where
  mimic_correct_count : Nat
  mimic_test_loss : ℚ
  org_correct_count : Nat
  org_test_loss : ℚ
  total : Nat

/-- Embedding of `autoencoder_tester.test`: switch both models to eval
mode, iterate the loader accumulating `predict` results for the extended
and the original model, and return the two accuracies (percent). Any
attribute, iteration, call, or division-by-zero failure aborts. -/
def test (ops : TorchOps) (extended_model org_model test_loader _device : PyVal) :
    Except PyErr (ℚ × ℚ) := do
  extended_model.evalMode
  org_model.evalMode
  let batches ← test_loader.iterate
  let st ← batches.foldlM
    (fun (st : TestAccum) b => do
      let (inputs, targets) := b
      let total := st.total + ops.size0 targets
      let (sub_mc, sub_ml) ← predict ops inputs targets extended_model
      let (sub_oc, sub_ol) ← predict ops inputs targets org_model
      return { mimic_correct_count := st.mimic_correct_count + sub_mc
               mimic_test_loss := st.mimic_test_loss + sub_ml
               org_correct_count := st.org_correct_count + sub_oc
               org_test_loss := st.org_test_loss + sub_ol
               total := total })
    ⟨0, 0, 0, 0, 0⟩
  if st.total = 0 then .error .zeroDivisionError
  else
    return (100 * (st.mimic_correct_count : ℚ) / (st.total : ℚ),
            100 * (st.org_correct_count : ℚ) / (st.total : ℚ))

/-- Embedding of the evaluation step of `autoencoder_tester.run`
(line 171): the source calls `test(extended_model, test_loader,
criterion, device)`, passing its four locals positionally in this
order. -/
def run_test_call (ops : TorchOps) (extended_model test_loader criterion device : PyVal) :
    Except PyErr (ℚ × ℚ) :=
  test ops extended_model test_loader criterion device

/-- Concrete autoencoder module used to exercise `extend_model`. -/
def wit_ae : TModule := fun x => x + 1

/-- Concrete host model used to exercise `extend_model`. -/
def wit_model : TModule := fun x => x * 2

/-- Concrete decomposed module sequence used to exercise `extend_model`. -/
def wit_mods : List TModule := [fun x => x - 3, fun x => x * 5]

/-- Concrete torch numerics used to exercise `test`: every batch has one
sample and every prediction counts as one hit. -/
def wit_ops : TorchOps :=
  { cross_entropy := fun a b => a - b
    argmax_labels := fun a => a
    eq_count := fun _ _ => 1
    size0 := fun _ => 1 }

end AutoencoderTester

namespace NetworkAnalyzer

/-- The argmin of a nonempty list is a valid index. -/
theorem npArgmin_lt_length : ∀ (l : List ℚ), l ≠ [] → npArgmin l < l.length
  | [], h => absurd rfl h
  | [_], _ => by simp [npArgmin]
  | x :: y :: rest, _ => by
    simp only [npArgmin]
    split
    · have ih := npArgmin_lt_length (y :: rest) (by simp)
      simpa using Nat.succ_lt_succ ih
    · simp

/-- The list value at the argmin index is a lower bound of the list. -/
theorem npArgmin_getD_le : ∀ (l : List ℚ) (k : Nat), k < l.length →
    l.getD (npArgmin l) 0 ≤ l.getD k 0
  | [], _, hk => by simp at hk
  | [_], 0, _ => le_refl _
  | [_], _ + 1, hk => by simp at hk
  | x :: y :: rest, k, hk => by
    simp only [npArgmin]
    split
    · rename_i hlt
      rw [List.getD_cons_succ]
      cases k with
      | zero => rw [List.getD_cons_zero]; exact le_of_lt hlt
      | succ k' =>
        rw [List.getD_cons_succ]
        exact npArgmin_getD_le (y :: rest) k' (by simpa using hk)
    · rename_i hge
      push_neg at hge
      rw [List.getD_cons_zero]
      cases k with
      | zero => rw [List.getD_cons_zero]
      | succ k' =>
        rw [List.getD_cons_succ]
        exact le_trans hge (npArgmin_getD_le (y :: rest) k' (by simpa using hk))

/-- Indexing with a nonnegative in-range index is plain list indexing. -/
theorem pyGet?_of_lt (xs : List ℚ) (n : Nat) (h : n < xs.length) :
    pyGet? xs (n : Int) = some (xs.getD n 0) := by
  simp only [pyGet?]
  rw [if_neg (show ¬((n : Int) < 0) by omega), if_pos (show (0 : Int) ≤ (n : Int) by omega)]
  have hn : ((n : Int)).toNat = n := Int.toNat_natCast n
  rw [hn, List.getElem?_eq_getElem h, List.getD_eq_getElem xs 0 h]

/-- Indexing a nonempty list at `-1` yields its last element. -/
theorem pyGet?_neg_one (xs : List ℚ) (h : xs ≠ []) :
    pyGet? xs (-1) = some (xs.getD (xs.length - 1) 0) := by
  have hlen : 0 < xs.length := List.length_pos.mpr h
  simp only [pyGet?]
  rw [if_pos (show (-1 : Int) < 0 by norm_num),
    if_pos (show (0 : Int) ≤ (xs.length : Int) + (-1) by omega)]
  have hj : ((xs.length : Int) + (-1)).toNat = xs.length - 1 := by omega
  rw [hj, List.getElem?_eq_getElem (by omega), List.getD_eq_getElem xs 0 (by omega)]

end NetworkAnalyzer

open NetworkAnalyzer in
/-- C1: in `analyze_teacher_student_models`, when the student version
marks a bottleneck and the minimum student bandwidth is strictly below
the bandwidth at position 0, the selected index is the argmin of the
bandwidths (a valid index attaining the minimum, necessarily ≥ 1), the
reported accumulated complexity is the one at the position right before
it, and the reported bandwidth is the bandwidth there divided by the
bandwidth at position 0; in particular on bandwidths `[100, 100, 20,
100]` with the flag set, the selected index is 2 and the complexity is
taken at index 1. -/
theorem bottleneck_selection_argmin
    (bw ac : List ℚ) (v : String)
    (hv : made_bottleneck v = true)
    (hbw : bw ≠ [])
    (hlt : npArgmin bw - 1 < ac.length)
    (hmin : bw.getD (npArgmin bw) 0 < bw.getD 0 0) :
    1 ≤ npArgmin bw ∧
    (∀ k, k < bw.length → bw.getD (npArgmin bw) 0 ≤ bw.getD k 0) ∧
    select_student_stats bw ac (made_bottleneck v)
      = some ⟨ac.getD (npArgmin bw - 1) 0,
              bw.getD (npArgmin bw) 0 / bw.getD 0 0⟩ ∧
    npArgmin [100, 100, 20, 100] = 2 ∧
    (∀ a b c d : ℚ, select_student_stats [100, 100, 20, 100] [a, b, c, d] true
      = some ⟨b, 20 / 100⟩) := by
  have hi_lt : npArgmin bw < bw.length := npArgmin_lt_length bw hbw
  have hi_pos : 1 ≤ npArgmin bw := by
    rcases Nat.eq_zero_or_pos (npArgmin bw) with h0 | h1
    · rw [h0] at hmin; exact absurd hmin (lt_irrefl _)
    · exact h1
  have h_at : pyGet? bw ((npArgmin bw : Int)) = some (bw.getD (npArgmin bw) 0) :=
    pyGet?_of_lt bw _ hi_lt
  have h_zero : pyGet? bw 0 = some (bw.getD 0 0) := by
    have h := pyGet?_of_lt bw 0 (by omega)
    simpa using h
  have hcast : ((npArgmin bw : Int)) - 1 = (((npArgmin bw - 1 : Nat)) : Int) := by omega
  have h_ac : pyGet? ac ((npArgmin bw : Int) - 1)
      = some (ac.getD (npArgmin bw - 1) 0) := by
    rw [hcast]; exact pyGet?_of_lt ac _ hlt
  refine ⟨hi_pos, fun k hk => npArgmin_getD_le bw k hk, ?_, by decide,
    fun a b c d => rfl⟩
  rw [hv]
  simp only [select_student_stats, reduceIte]
  rw [h_at, h_zero]
  dsimp only
  rw [if_neg (by
    rintro (hle | hfalse)
    · exact absurd hmin (not_lt.mpr hle)
    · exact absurd hfalse (by decide))]
  rw [h_ac]

open NetworkAnalyzer in
/-- C2: in `analyze_teacher_student_models`, when the bottleneck flag is
unset (whatever the bandwidths), or when it is set but the minimum
bandwidth is not below the bandwidth at position 0, the last layer is
selected: the reported accumulated complexity is the last accumulated
complexity and the reported bandwidth is the last bandwidth divided by
the bandwidth at position 0, position 0 being the normalization
baseline. -/
theorem last_layer_selection
    (bw ac : List ℚ) (made : Bool) (hbw : bw ≠ []) (hac : ac ≠ [])
    (h : made = false ∨ bw.getD 0 0 ≤ bw.getD (npArgmin bw) 0) :
    select_student_stats bw ac made
      = some ⟨ac.getD (ac.length - 1) 0,
              bw.getD (bw.length - 1) 0 / bw.getD 0 0⟩ := by
  have h_zero : pyGet? bw 0 = some (bw.getD 0 0) := by
    have hlen : 0 < bw.length := List.length_pos.mpr hbw
    have h := pyGet?_of_lt bw 0 (by omega)
    simpa using h
  have h_last_bw : pyGet? bw (-1) = some (bw.getD (bw.length - 1) 0) :=
    pyGet?_neg_one bw hbw
  have h_last_ac : pyGet? ac (-1) = some (ac.getD (ac.length - 1) 0) :=
    pyGet?_neg_one ac hac
  cases made with
  | false =>
    simp only [select_student_stats, Bool.false_eq_true, reduceIte]
    rw [h_last_bw, h_zero, h_last_ac]
    simp
  | true =>
    have hge : bw.getD 0 0 ≤ bw.getD (npArgmin bw) 0 := by
      rcases h with hfalse | hge
      · exact absurd hfalse (by decide)
      · exact hge
    have hi_lt : npArgmin bw < bw.length := npArgmin_lt_length bw hbw
    have h_at : pyGet? bw ((npArgmin bw : Int)) = some (bw.getD (npArgmin bw) 0) :=
      pyGet?_of_lt bw _ hi_lt
    simp only [select_student_stats, reduceIte]
    rw [h_at, h_zero]
    dsimp only
    rw [if_pos (Or.inl hge)]
    rw [h_last_ac, h_last_bw]

open NetworkAnalyzer in
/-- Witness for C1 at the spec's own example: bandwidths
`[100, 100, 20, 100]`, accumulated complexities `[1, 2, 3, 4]`, a
student version string ending in `b`. -/
theorem bottleneck_selection_argmin_witness :
    1 ≤ npArgmin [100, 100, 20, 100] ∧
    (∀ k, k < ([100, 100, 20, 100] : List ℚ).length →
      ([100, 100, 20, 100] : List ℚ).getD (npArgmin [100, 100, 20, 100]) 0
        ≤ ([100, 100, 20, 100] : List ℚ).getD k 0) ∧
    select_student_stats [100, 100, 20, 100] [1, 2, 3, 4] (made_bottleneck "0.5b")
      = some ⟨([1, 2, 3, 4] : List ℚ).getD (npArgmin [100, 100, 20, 100] - 1) 0,
              ([100, 100, 20, 100] : List ℚ).getD (npArgmin [100, 100, 20, 100]) 0
                / ([100, 100, 20, 100] : List ℚ).getD 0 0⟩ ∧
    npArgmin [100, 100, 20, 100] = 2 ∧
    (∀ a b c d : ℚ, select_student_stats [100, 100, 20, 100] [a, b, c, d] true
      = some ⟨b, 20 / 100⟩) :=
  bottleneck_selection_argmin [100, 100, 20, 100] [1, 2, 3, 4] "0.5b" (by rfl)
    (List.cons_ne_nil _ _) (by decide) (by decide)

open NetworkAnalyzer in
/-- Witness for C2: the flag is unset on the same bandwidth sequence, so
the last layer is selected. -/
theorem last_layer_selection_witness :
    select_student_stats [100, 100, 20, 100] [1, 2, 3, 4] false
      = some ⟨([1, 2, 3, 4] : List ℚ).getD (([1, 2, 3, 4] : List ℚ).length - 1) 0,
              ([100, 100, 20, 100] : List ℚ).getD
                  (([100, 100, 20, 100] : List ℚ).length - 1) 0
                / ([100, 100, 20, 100] : List ℚ).getD 0 0⟩ :=
  last_layer_selection [100, 100, 20, 100] [1, 2, 3, 4] false
    (List.cons_ne_nil _ _) (List.cons_ne_nil _ _) (Or.inl rfl)

open AutoencoderTester in
/-- C3: for every partition index `i > 0` (within the decomposed
sequence), `extend_model` returns the sequential network made of the
first `i` decomposed modules, then the autoencoder, then the remaining
modules from index `i` on: the autoencoder sits between layer `i - 1`
and layer `i`, the host modules keep their relative order, and running
the result applies the prefix, the autoencoder, then the suffix. -/
theorem extend_model_insertion
    (ae model : TModule) (mods : List TModule) (i : Nat)
    (hi : 0 < i) (hile : i ≤ mods.length) :
    extend_model ae model mods (some i) = mods.take i ++ [ae] ++ mods.drop i ∧
    (extend_model ae model mods (some i)).length = mods.length + 1 ∧
    (∀ j, j < i → (extend_model ae model mods (some i))[j]? = mods[j]?) ∧
    (extend_model ae model mods (some i))[i]? = some ae ∧
    (∀ j, i ≤ j → j < mods.length →
      (extend_model ae model mods (some i))[j + 1]? = mods[j]?) ∧
    (∀ x, sequential (extend_model ae model mods (some i)) x
      = sequential (mods.drop i) (ae (sequential (mods.take i) x))) := by
  have heq : extend_model ae model mods (some i)
      = mods.take i ++ [ae] ++ mods.drop i := by
    cases i with
    | zero => exact absurd hi (lt_irrefl 0)
    | succ n => rfl
  have hlen_take : (mods.take i).length = i := by
    rw [List.length_take]; omega
  refine ⟨heq, ?_, ?_, ?_, ?_, ?_⟩
  · rw [heq]
    simp only [List.length_append, List.length_cons, List.length_nil, hlen_take,
      List.length_drop]
    omega
  · intro j hj
    rw [heq, List.append_assoc]
    rw [List.getElem?_append_left (by rw [hlen_take]; exact hj)]
    exact List.getElem?_take_of_lt hj
  · rw [heq, List.append_assoc]
    rw [List.getElem?_append_right hlen_take.le]
    simp [hlen_take]
  · intro j hij hjlen
    have h1 : (mods.take i ++ [ae]).length = i + 1 := by
      simp [hlen_take]
    rw [heq]
    rw [List.getElem?_append_right (by rw [h1]; omega)]
    rw [h1, List.getElem?_drop]
    congr 1
    omega
  · intro x
    rw [heq]
    simp [sequential, List.foldl_append, List.foldl_cons, List.foldl_nil]

open AutoencoderTester in
/-- C4: `extend_model` with `partition_idx = 0` and with
`partition_idx = None` return the same composition, which first applies
the autoencoder to the input and then runs the unmodified original
model. -/
theorem extend_model_no_split (ae model : TModule) (mods : List TModule) :
    extend_model ae model mods none = extend_model ae model mods (some 0) ∧
    extend_model ae model mods none = [ae, model] ∧
    (∀ x, sequential (extend_model ae model mods (some 0)) x = model (ae x)) :=
  ⟨rfl, rfl, fun _ => rfl⟩

open AutoencoderTester in
/-- Witness for C3: splicing the autoencoder into a two-module host at
partition index 1. -/
theorem extend_model_insertion_witness :
    (0 < 1 ∧ 1 ≤ wit_mods.length) ∧
    (extend_model wit_ae wit_model wit_mods (some 1)
        = wit_mods.take 1 ++ [wit_ae] ++ wit_mods.drop 1 ∧
      (extend_model wit_ae wit_model wit_mods (some 1)).length = wit_mods.length + 1 ∧
      (∀ j, j < 1 → (extend_model wit_ae wit_model wit_mods (some 1))[j]? = wit_mods[j]?) ∧
      (extend_model wit_ae wit_model wit_mods (some 1))[1]? = some wit_ae ∧
      (∀ j, 1 ≤ j → j < wit_mods.length →
        (extend_model wit_ae wit_model wit_mods (some 1))[j + 1]? = wit_mods[j]?) ∧
      (∀ x, sequential (extend_model wit_ae wit_model wit_mods (some 1)) x
        = sequential (wit_mods.drop 1) (wit_ae (sequential (wit_mods.take 1) x)))) :=
  ⟨⟨Nat.one_pos, by simp [wit_mods]⟩,
   extend_model_insertion wit_ae wit_model wit_mods 1 Nat.one_pos (by simp [wit_mods])⟩

open NetworkAnalyzer AutoencoderTester in
/-- C5: `get_model` rejects, with an error naming the offending value,
every identifier that is none of `mnist`, `yolov2`, `yolov3`
(case-insensitively) and is not a known torchvision model name, and
accepts every recognized identifier; `get_autoencoder` rejects every
type other than `input` with an error naming it and accepts `input`. -/
theorem model_type_dispatch_errors :
    (∀ (tv : List String) (mt : String),
      py_lower mt ≠ "mnist" → py_lower mt ≠ "yolov2" → py_lower mt ≠ "yolov3" →
      mt ∉ tv →
      get_model tv mt = .error ("model_type `" ++ mt ++ "` is not expected")) ∧
    (∀ (tv : List String) (mt : String),
      py_lower mt = "mnist" ∨ py_lower mt = "yolov2" ∨ py_lower mt = "yolov3" ∨ mt ∈ tv →
      ∃ m, get_model tv mt = .ok m) ∧
    (∀ t : String, t ≠ "input" →
      get_autoencoder t = .error ("ae_type `" ++ t ++ "` is not expected")) ∧
    get_autoencoder "input" = .ok .inputAE := by
  refine ⟨?_, ?_, ?_, rfl⟩
  · intro tv mt h1 h2 h3 h4
    simp only [get_model]
    rw [if_neg h1, if_neg h2, if_neg h3, if_neg h4]
  · intro tv mt h
    by_cases h1 : py_lower mt = "mnist"
    · exact ⟨.mnistLeNet5, by simp only [get_model]; rw [if_pos h1]⟩
    by_cases h2 : py_lower mt = "yolov2"
    · exact ⟨.yolov2, by simp only [get_model]; rw [if_neg h1, if_pos h2]⟩
    by_cases h3 : py_lower mt = "yolov3"
    · exact ⟨.yolov3, by simp only [get_model]; rw [if_neg h1, if_neg h2, if_pos h3]⟩
    have h4 : mt ∈ tv := by
      rcases h with h | h | h | h
      · exact absurd h h1
      · exact absurd h h2
      · exact absurd h h3
      · exact h
    exact ⟨.torchvision mt, by
      simp only [get_model]; rw [if_neg h1, if_neg h2, if_neg h3, if_pos h4]⟩
  · intro t ht
    simp only [get_autoencoder]
    rw [if_neg ht]

open NetworkAnalyzer AutoencoderTester in
/-- Witness for C5: an unknown model type and an unknown autoencoder
type are rejected with errors naming them; `MNIST` (case-insensitive)
is accepted. -/
theorem model_type_dispatch_errors_witness :
    get_model ["resnet152"] "foo" = .error ("model_type `" ++ "foo" ++ "` is not expected") ∧
    (∃ m, get_model ["resnet152"] "MNIST" = .ok m) ∧
    get_autoencoder "output" = .error ("ae_type `" ++ "output" ++ "` is not expected") :=
  ⟨model_type_dispatch_errors.1 ["resnet152"] "foo"
      (by decide) (by decide) (by decide) (by decide),
   model_type_dispatch_errors.2.1 ["resnet152"] "MNIST" (Or.inl (by decide)),
   model_type_dispatch_errors.2.2.1 "output" (by decide)⟩

open AutoencoderTester in
/-- C6: when no checkpoint file exists at the path, `resume_from_ckpt`
does not fail and does not touch the autoencoder's parameters: it
returns start epoch 1 and the sentinel best loss `1e60`. -/
theorem resume_missing_ckpt (fs : CkptStore) (path : String) (ae : StateDict)
    (h : fs path = none) :
    resume_from_ckpt fs path ae = (ae, 1, 10 ^ 60) := by
  unfold resume_from_ckpt
  rw [h]

open AutoencoderTester in
/-- Witness for C6 on the empty checkpoint store. -/
theorem resume_missing_ckpt_witness :
    resume_from_ckpt (fun _ => none) "ae_ckpt.pt" [("w", 7)]
      = ([("w", 7)], 1, 10 ^ 60) :=
  resume_missing_ckpt (fun _ => none) "ae_ckpt.pt" [("w", 7)] rfl

open AutoencoderTester in
/-- C7: `save_ckpt` persists at the given path a record with exactly the
four fields `type`, `model` (the parameter state, unwrapped from any
`DataParallel` container), `epoch` and `best_avg_loss`, and
`resume_from_ckpt` on an existing checkpoint reads back exactly the
`model`, `epoch` and `best_avg_loss` fields of the stored record. -/
theorem save_ckpt_record_fields
    (fs : CkptStore) (ae : Autoencoder) (e : Int) (l : ℚ) (path t : String) :
    (save_ckpt fs ae e l path t) path
      = some { type := t, model := ae.unwrapped_state, epoch := e + 1,
               best_avg_loss := l } ∧
    (∀ sd : StateDict, (Autoencoder.plain sd).unwrapped_state = sd ∧
      (Autoencoder.dataParallel sd).unwrapped_state = sd) ∧
    (∀ (fs' : CkptStore) (p : String) (c : Checkpoint) (ae0 : StateDict),
      fs' p = some c →
      resume_from_ckpt fs' p ae0 = (c.model, c.epoch, c.best_avg_loss)) := by
  refine ⟨?_, fun sd => ⟨rfl, rfl⟩, ?_⟩
  · unfold save_ckpt
    rw [if_pos rfl]
  · intro fs' p c ae0 h
    unfold resume_from_ckpt
    rw [h]

open AutoencoderTester in
/-- Witness for C7: a `DataParallel`-wrapped autoencoder is saved
unwrapped and an existing record is read back field by field. -/
theorem save_ckpt_record_fields_witness :
    (save_ckpt (fun _ => none) (Autoencoder.dataParallel [("w", 2)]) 5 3 "p" "input") "p"
      = some { type := "input", model := [("w", 2)], epoch := 5 + 1,
               best_avg_loss := 3 } ∧
    resume_from_ckpt (fun _ => some ⟨"input", [("w", 2)], 6, 3⟩) "p" []
      = ([("w", 2)], 6, 3) :=
  ⟨(save_ckpt_record_fields (fun _ => none) (Autoencoder.dataParallel [("w", 2)])
      5 3 "p" "input").1,
   (save_ckpt_record_fields (fun _ => none) (Autoencoder.dataParallel [("w", 2)])
      5 3 "p" "input").2.2 (fun _ => some ⟨"input", [("w", 2)], 6, 3⟩) "p"
      ⟨"input", [("w", 2)], 6, 3⟩ [] rfl⟩

open AutoencoderTester in
/-- C10: saving a checkpoint at epoch `e` with best loss `l` and resuming
from the same path returns start epoch `e + 1` (one more than the saved
argument) and best loss `l`, and restores the autoencoder's saved
(unwrapped) parameter state. -/
theorem save_resume_roundtrip (fs : CkptStore) (ae : Autoencoder) (e : Int) (l : ℚ)
    (path t : String) (ae0 : StateDict) :
    resume_from_ckpt (save_ckpt fs ae e l path t) path ae0
      = (ae.unwrapped_state, e + 1, l) := by
  unfold resume_from_ckpt save_ckpt
  rw [if_pos rfl]

open AutoencoderTester in
/-- C8: the evaluation call in `autoencoder_tester.run` passes the test
data loader in `test`'s `org_model` position and the loss criterion in
its `test_loader` position; executed this way, `test` fails (the data
loader has no `eval` attribute, and the criterion it would have to
iterate is not iterable), while a correctly ordered call on a nonempty
loader succeeds — the evaluation cannot run as intended. -/
theorem test_swapped_arguments (ops : TorchOps) (f : ℚ → ℚ)
    (batches : List (ℚ × ℚ)) (dev : String) :
    run_test_call ops (.module f) (.dataLoader batches) .lossCriterion (.deviceStr dev)
      = test ops (.module f) (.dataLoader batches) .lossCriterion (.deviceStr dev) ∧
    run_test_call ops (.module f) (.dataLoader batches) .lossCriterion (.deviceStr dev)
      = .error (.attributeError "eval") ∧
    PyVal.iterate .lossCriterion = .error (.typeError "object is not iterable") ∧
    (∀ (g : ℚ → ℚ) (x y : ℚ), ops.size0 y ≠ 0 →
      ∃ r, test ops (.module f) (.module g) (.dataLoader [(x, y)]) (.deviceStr dev)
        = .ok r) := by
  refine ⟨rfl, rfl, rfl, ?_⟩
  intro g x y h
  have hstep : test ops (.module f) (.module g) (.dataLoader [(x, y)]) (.deviceStr dev)
      = if 0 + ops.size0 y = 0 then .error .zeroDivisionError
        else .ok
          (100 * ((0 + ops.eq_count (ops.argmax_labels (f x)) y : Nat) : ℚ)
              / ((0 + ops.size0 y : Nat) : ℚ),
           100 * ((0 + ops.eq_count (ops.argmax_labels (g x)) y : Nat) : ℚ)
              / ((0 + ops.size0 y : Nat) : ℚ)) := rfl
  rw [hstep, if_neg (by simpa using h)]
  exact ⟨_, rfl⟩

open AutoencoderTester in
/-- Witness for C8: with concrete numerics, the swapped call fails with
the attribute error while the correctly ordered call succeeds. -/
theorem test_swapped_arguments_witness :
    run_test_call wit_ops (.module (fun x => x)) (.dataLoader []) .lossCriterion
        (.deviceStr "cpu")
      = .error (.attributeError "eval") ∧
    (∃ r, test wit_ops (.module (fun x => x)) (.module (fun x => x))
        (.dataLoader [(0, 0)]) (.deviceStr "cpu") = .ok r) :=
  ⟨(test_swapped_arguments wit_ops (fun x => x) [] "cpu").2.1,
   (test_swapped_arguments wit_ops (fun x => x) [] "cpu").2.2.2
      (fun x => x) 0 0 (by decide)⟩

open NetworkAnalyzer in
/-- C9: `network_analyzer.run` takes the teacher/student path exactly
when at least two config paths are supplied and the `-ts` flag is set;
with at most one path it performs single-model analysis (so the
multi-model and teacher/student behaviours are unreachable), and with at
least two paths and the flag unset it performs the independent
multi-model analysis. -/
theorem run_dispatch (paths : List String) (ts : Bool) :
    (run paths ts = .teacherStudentModels paths ↔ 2 ≤ paths.length ∧ ts = true) ∧
    (paths.length ≤ 1 →
      run paths ts
        = .singleModel (if paths.length = 0 then none else paths[0]?)) ∧
    (2 ≤ paths.length → ts = false → run paths ts = .multipleModels paths) := by
  unfold run
  by_cases h1 : paths.length ≤ 1
  · rw [if_pos h1]
    refine ⟨⟨fun hc => ?_, fun hc => ?_⟩, fun _ => rfl, fun h2 _ => ?_⟩
    · exact AnalysisAction.noConfusion hc
    · omega
    · omega
  · rw [if_neg h1]
    cases ts with
    | false =>
      rw [if_pos rfl]
      refine ⟨⟨fun hc => AnalysisAction.noConfusion hc, fun hc => ?_⟩,
        fun h2 => absurd h2 h1, fun _ _ => rfl⟩
      · exact absurd hc.2 (by decide)
    | true =>
      rw [if_neg (by decide)]
      refine ⟨⟨fun _ => ⟨by omega, rfl⟩, fun _ => rfl⟩,
        fun h2 => absurd h2 h1, fun _ ht => absurd ht (by decide)⟩

open NetworkAnalyzer in
/-- Witness for C9: two paths with the flag set dispatch to the
teacher/student analysis; one path dispatches to single-model
analysis. -/
theorem run_dispatch_witness :
    run ["a.yaml", "b.yaml"] true = .teacherStudentModels ["a.yaml", "b.yaml"] ∧
    run ["c.yaml"] false
      = .singleModel (if (["c.yaml"] : List String).length = 0
          then none else (["c.yaml"] : List String)[0]?) :=
  ⟨(run_dispatch ["a.yaml", "b.yaml"] true).1.mpr ⟨by decide, rfl⟩,
   (run_dispatch ["c.yaml"] false).2.1 (by decide)⟩
